import Mathlib

/-!
# Verification of the scrape-paginate-download orchestration

This development embeds, in Lean, the scrape-paginate-download subsystem
generated by `src/_Research/custom/run.py`: the background coordinator
(`scraperState`, `downloadFile`, the `onMessage` handler of
`background_js_content`) and the page agent (`extractData`, `scrollAndCheck`,
the lazy-load loop of `scrape`, and `paginate` of `content_script_js_content`).

JavaScript string primitives used by the source (`split` on a single
character, `substring(lastIndexOf('/') + 1)`, template interpolation of a
possibly-`undefined` value) are modelled as total functions over `List Char`
so that every definition evaluates by kernel reduction.
-/

namespace Scraper

/-! ## JavaScript string primitives -/

/-- JS `s.split(sep)` for a single-character separator: splits on every
occurrence of `sep`; `"".split(sep)` is `[""]`, and a separator at either
end produces an empty chunk, exactly as in JavaScript. -/
def splitCharList (sep : Char) : List Char → List (List Char)
  | [] => [[]]
  | c :: rest =>
      match splitCharList sep rest with
      | [] => [[]]
      | h :: t => if c = sep then [] :: h :: t else (c :: h) :: t

/-- JS `s.split(sep)` lifted to `String`. -/
def jsSplit (s : String) (sep : Char) : List String :=
  (splitCharList sep s.data).map List.asString

/-- JS `url.substring(url.lastIndexOf('/') + 1)`: the trailing segment after
the last `'/'`; the whole string when there is no `'/'` (since
`lastIndexOf` returns `-1` and `substring(0)` is the identity). -/
def afterLastSlash (s : String) : String :=
  List.asString ((s.data.reverse.takeWhile (fun c => c ≠ '/')).reverse)

/-- JS template interpolation `${x}` of a value that may be `undefined`:
an absent value prints as the string `"undefined"`. -/
def jsTemplate : Option String → String
  | some s => s
  | none => "undefined"

/-! ## Download Gate (`background.js`, `downloadFile`)

JS source:
```
let filename = url.substring(url.lastIndexOf('/') + 1).split('?')[0];
let originalFilename = filename;
let counter = 0;
while (scraperState.downloadedFiles[filename]) {
    counter++;
    filename = originalFilename.split('.')[0] + '_' + counter + '.' + originalFilename.split('.')[1];
}
scraperState.downloadedFiles[filename] = true;
try { await chrome.downloads.download({url, filename: 'scraped_images/' + filename}); return {success: true, url}; }
catch (error) { return {success: false, url, error: error.message}; }
```
-/

/-- The candidate filename derived from the URL:
`url.substring(url.lastIndexOf('/') + 1).split('?')[0]`. -/
def deriveFilename (url : String) : String :=
  (jsSplit (afterLastSlash url) '?').headD ""

/-- The collision candidate for counter `c`:
`originalFilename.split('.')[0] + '_' + c + '.' + originalFilename.split('.')[1]`,
where an absent second chunk interpolates as `"undefined"`. -/
def candidate (orig : String) (c : Nat) : String :=
  (jsSplit orig '.').headD "" ++ "_" ++ toString c ++ "." ++
    jsTemplate ((jsSplit orig '.').get? 1)

/-- The `while (downloadedFiles[filename])` loop of `downloadFile`,
with explicit fuel: check the current `filename`; on collision increment
`counter` and recompute the candidate from the original filename. -/
def dedupLoop (files : List String) (orig : String) :
    Nat → Nat → String → String
  | 0, _, filename => filename
  | fuel + 1, counter, filename =>
      if filename ∈ files then
        dedupLoop files orig fuel (counter + 1) (candidate orig (counter + 1))
      else filename

/-- The filename claimed by `downloadFile` for `url` against the set of
already-claimed names `files`. Fuel `files.length + 2` is enough: the checked
candidates are pairwise distinct, so one of the first `files.length + 2`
checks must miss `files` (proved below). -/
def claimFilename (files : List String) (url : String) : String :=
  let orig := deriveFilename url
  dedupLoop files orig (files.length + 2) 0 orig

/-- The `k`-th name checked by the collision loop started at `counter`
with current name `filename`: the current name at `k = 0`, then the
candidates for counters `counter + 1`, `counter + 2`, … . -/
def checkName (orig : String) (counter : Nat) (filename : String) (k : Nat) :
    String :=
  if k = 0 then filename else candidate orig (counter + k)

/-- Result of one `downloadFile` call: the tagged `{success, url, error}`
object it returns. -/
structure DownloadResult where
  success : Bool
  url : String
  error : Option String
deriving DecidableEq, Repr

/-- `downloadFile`, with the external download capability abstracted as an
oracle mapping `(url, destination path)` to success or an error message.
The claimed filename is recorded in `downloadedFiles` before the download
is attempted, and the try/catch converts either outcome into a tagged
result. Returns the result together with the updated `downloadedFiles`. -/
def downloadFile (oracle : String → String → Except String Unit)
    (files : List String) (url : String) : DownloadResult × List String :=
  let filename := claimFilename files url
  let files' := filename :: files
  match oracle url ("scraped_images/" ++ filename) with
  | .ok _ => (⟨true, url, none⟩, files')
  | .error e => (⟨false, url, some e⟩, files')

/-- A download capability that always succeeds. -/
def oracleOk : String → String → Except String Unit := fun _ _ => .ok ()

/-- A download capability that always fails with a fixed message. -/
def oracleFail : String → String → Except String Unit :=
  fun _ _ => .error "network error"

/-! ### Termination of the collision loop

The names checked by the loop are `orig, candidate 1, candidate 2, …`; the
candidates are pairwise distinct because decimal numerals are, so among the
first `files.length + 2` checked names one misses `files` and the fuelled
loop always exits through its `else` branch. -/

/-- Decimal value of a digit character (`0` for non-digits). -/
def digVal (c : Char) : Nat :=
  if c = '0' then 0 else
  if c = '1' then 1 else
  if c = '2' then 2 else
  if c = '3' then 3 else
  if c = '4' then 4 else
  if c = '5' then 5 else
  if c = '6' then 6 else
  if c = '7' then 7 else
  if c = '8' then 8 else
  if c = '9' then 9 else 0

/-- Value of a digit string read in base 10. -/
def listVal : List Char → Nat
  | [] => 0
  | c :: cs => digVal c * 10 ^ cs.length + listVal cs

theorem digVal_digitChar {d : Nat} (h : d < 10) :
    digVal (Nat.digitChar d) = d := by
  interval_cases d <;> rfl

theorem listVal_toDigitsCore :
    ∀ (fuel n : Nat) (ds : List Char), n < 10 ^ fuel →
      listVal (Nat.toDigitsCore 10 fuel n ds) = n * 10 ^ ds.length + listVal ds := by
  intro fuel
  induction fuel with
  | zero =>
      intro n ds hn
      have : n = 0 := by simpa using Nat.lt_one_iff.mp (by simpa using hn)
      subst this
      simp [Nat.toDigitsCore]
  | succ f ih =>
      intro n ds hn
      rw [Nat.toDigitsCore]
      by_cases h10 : n / 10 = 0
      · have hlt : n < 10 := by omega
        simp only [h10, if_pos rfl]
        simp only [listVal, Nat.mod_eq_of_lt hlt, digVal_digitChar hlt]
      · simp only [if_neg h10]
        have hdiv : n / 10 < 10 ^ f := by
          apply Nat.div_lt_of_lt_mul
          calc n < 10 ^ (f + 1) := hn
            _ = 10 * 10 ^ f := by ring
        rw [ih (n / 10) _ hdiv]
        simp only [listVal, List.length_cons,
          digVal_digitChar (Nat.mod_lt n (by omega))]
        have hmod := Nat.div_add_mod n 10
        calc n / 10 * 10 ^ (ds.length + 1) + (n % 10 * 10 ^ ds.length + listVal ds)
            = (10 * (n / 10) + n % 10) * 10 ^ ds.length + listVal ds := by ring
          _ = n * 10 ^ ds.length + listVal ds := by rw [hmod]

theorem listVal_toDigits (n : Nat) : listVal (Nat.toDigits 10 n) = n := by
  have hb : (1 : Nat) < 10 := by omega
  have h : n < 10 ^ (n + 1) :=
    lt_of_lt_of_le (Nat.lt_pow_self hb n)
      (Nat.pow_le_pow_right (by omega) (Nat.le_succ n))
  simpa [listVal] using listVal_toDigitsCore (n + 1) n [] h

theorem natRepr_injective : Function.Injective Nat.repr := by
  intro a b h
  have hdata : Nat.toDigits 10 a = Nat.toDigits 10 b := by
    have := congrArg String.data h
    simpa [Nat.repr, List.asString] using this
  have := congrArg listVal hdata
  simpa [listVal_toDigits] using this

theorem candidate_injective (orig : String) :
    Function.Injective (candidate orig) := by
  intro a b h
  unfold candidate at h
  have hd := congrArg String.data h
  simp only [String.data_append, List.append_assoc] at hd
  have hd2 := List.append_cancel_left hd
  have hd3 := List.append_cancel_left hd2
  have hd4 := List.append_cancel_right hd3
  have hrepr : Nat.repr a = Nat.repr b := by
    apply String.ext
    simpa [toString] using hd4
  exact natRepr_injective hrepr

theorem exists_checkName_free (files : List String) (orig filename : String) :
    ∃ k, k < files.length + 2 ∧ checkName orig 0 filename k ∉ files := by
  by_contra hcon
  push_neg at hcon
  have hmem : ∀ j ∈ Finset.range (files.length + 1),
      candidate orig (j + 1) ∈ files := by
    intro j hj
    rw [Finset.mem_range] at hj
    have := hcon (j + 1) (by omega)
    simpa [checkName] using this
  have hinj : Set.InjOn (fun j => candidate orig (j + 1))
      (Finset.range (files.length + 1)) := by
    intro a _ b _ hab
    have := candidate_injective orig hab
    omega
  have hcard : (Finset.image (fun j => candidate orig (j + 1))
      (Finset.range (files.length + 1))).card = files.length + 1 := by
    rw [Finset.card_image_of_injOn hinj, Finset.card_range]
  have hsub : Finset.image (fun j => candidate orig (j + 1))
      (Finset.range (files.length + 1)) ⊆ files.toFinset := by
    intro x hx
    rw [Finset.mem_image] at hx
    obtain ⟨j, hj, rfl⟩ := hx
    exact List.mem_toFinset.mpr (hmem j hj)
  have h1 := Finset.card_le_card hsub
  have h2 := List.toFinset_card_le files
  omega

theorem dedupLoop_eq_checkName (files : List String) (orig : String) :
    ∀ (fuel counter : Nat) (filename : String) (k : Nat), k < fuel →
      (∀ i < k, checkName orig counter filename i ∈ files) →
      checkName orig counter filename k ∉ files →
      dedupLoop files orig fuel counter filename =
        checkName orig counter filename k := by
  intro fuel
  induction fuel with
  | zero => intro counter filename k hk; omega
  | succ f ih =>
      intro counter filename k hk hall hfree
      by_cases hmem : filename ∈ files
      · have hk0 : k ≠ 0 := by
          intro h0
          subst h0
          simp [checkName] at hfree
          exact hfree hmem
        obtain ⟨k', rfl⟩ : ∃ k', k = k' + 1 := ⟨k - 1, by omega⟩
        have heq : ∀ j, checkName orig (counter + 1) (candidate orig (counter + 1)) j
            = checkName orig counter filename (j + 1) := by
          intro j
          cases j with
          | zero => simp [checkName]
          | succ j' =>
              simp only [checkName, if_neg (Nat.succ_ne_zero j')]
              congr 1
              omega
        rw [dedupLoop, if_pos hmem, ← heq k']
        apply ih
        · omega
        · intro i hi
          rw [heq i]
          exact hall (i + 1) (by omega)
        · rw [heq k']
          exact hfree
      · have hk0 : k = 0 := by
          by_contra h0
          exact hmem (by simpa [checkName] using hall 0 (by omega))
        subst hk0
        simp [dedupLoop, hmem, checkName]

/-- The filename claimed by `downloadFile` is the first name in the JS
check sequence (the derived name, then `candidate 1`, `candidate 2`, …)
that is not already claimed; in particular it is never a name already in
`downloadedFiles`. -/
theorem claimFilename_eq_first (files : List String) (url : String) :
    ∃ k, claimFilename files url = checkName (deriveFilename url) 0 (deriveFilename url) k ∧
      (∀ i < k, checkName (deriveFilename url) 0 (deriveFilename url) i ∈ files) ∧
      checkName (deriveFilename url) 0 (deriveFilename url) k ∉ files := by
  set orig := deriveFilename url with horig
  obtain ⟨m, hm, hfreem⟩ := exists_checkName_free files orig orig
  have hex : ∃ k, checkName orig 0 orig k ∉ files := ⟨m, hfreem⟩
  refine ⟨Nat.find hex, ?_, ?_, Nat.find_spec hex⟩
  · have hlt : Nat.find hex < files.length + 2 :=
      lt_of_le_of_lt (Nat.find_min' hex hfreem) hm
    exact dedupLoop_eq_checkName files orig (files.length + 2) 0 orig
      (Nat.find hex) hlt
      (fun i hi => not_not.mp (Nat.find_min hex hi)) (Nat.find_spec hex)
  · exact fun i hi => not_not.mp (Nat.find_min hex hi)

theorem claimFilename_not_mem (files : List String) (url : String) :
    claimFilename files url ∉ files := by
  obtain ⟨k, hk, _, hfree⟩ := claimFilename_eq_first files url
  rw [hk]
  exact hfree

example : deriveFilename "https://example.com/a/photo.jpg?w=200" = "photo.jpg" := by
  decide

example : claimFilename [] "https://example.com/photo.jpg" = "photo.jpg" := by
  decide

example : claimFilename ["photo.jpg"] "https://example.com/photo.jpg" = "photo_1.jpg" := by
  decide

example :
    claimFilename ["photo_1.jpg", "photo.jpg"] "https://example.com/photo.jpg" =
      "photo_2.jpg" := by
  decide

example :
    claimFilename ["archive.tar.gz"] "https://example.com/archive.tar.gz" =
      "archive_1.tar" := by
  decide

example : claimFilename ["photo"] "https://example.com/photo" = "photo_1.undefined" := by
  decide

/-! ## Coordinator (`background.js`)

JS source:
```
let scraperState = {
    running: false,
    results: { thumbnails: [], destinations: [] },
    downloadedFiles: {},
    currentPage: 1,
    lastScrapedHeight: 0
};
chrome.runtime.onMessage.addListener(async (message, sender, sendResponse) => {
    if (message.action === 'startScrape' && !scraperState.running) {
        scraperState.running = true;
        ... sendMessage({action: 'scrapePage'});
    } else if (message.action === 'scrapedData') {
        console.log('Received scraped data ...', message.data);
        scraperState.results.thumbnails.push(...message.data.thumbnails);
        scraperState.results.destinations.push(...message.data.destinations);
        for (const url of message.data.thumbnails) {
            const result = await downloadFile(url);
            if (!result.success) console.error('Failed to download ...');
        }
        ... sendMessage({action: 'paginate'});
        sendResponse(...);
    } else if (message.action === 'scrapeComplete') {
        scraperState.running = false;
        console.log('Scraping complete! Final results:', scraperState.results);
        sendResponse(...);
    }
    return true;
});
```
-/

/-- The background coordinator's `scraperState` object. -/
structure ScraperState where
  running : Bool
  thumbnails : List String
  destinations : List String
  downloadedFiles : List String
  currentPage : Nat
  lastScrapedHeight : Nat
deriving DecidableEq, Repr

/-- The initial `scraperState` literal. -/
def initState : ScraperState :=
  { running := false, thumbnails := [], destinations := [],
    downloadedFiles := [], currentPage := 1, lastScrapedHeight := 0 }

/-- The messages handled by the background `onMessage` listener. -/
inductive Msg where
  | startScrape
  | scrapedData (thumbnails destinations : List String)
  | scrapeComplete
deriving DecidableEq, Repr

/-- Observable effects of the background handler: directives sent to the
page context and console output. -/
inductive Event where
  | sendScrapePage
  | sendPaginate
  | logReceived (thumbnails destinations : List String)
  | logDownloadError (url : String) (error : String)
  | logComplete (thumbnails destinations : List String)
deriving DecidableEq, Repr

/-- The sequential download loop of the `scrapedData` branch:
`for (const url of message.data.thumbnails) { ... }`, threading
`downloadedFiles` and logging a `console.error` per failed download. -/
def processDownloads (oracle : String → String → Except String Unit) :
    List String → List String → List String × List Event
  | files, [] => (files, [])
  | files, url :: rest =>
      let (res, files') := downloadFile oracle files url
      let evs := if res.success then [] else
        [Event.logDownloadError url (res.error.getD "")]
      let (files'', evs') := processDownloads oracle files' rest
      (files'', evs ++ evs')

/-- One step of the background `onMessage` listener: given the download
capability, the current `scraperState` and a message, produce the next
state and the emitted effects. -/
def handle (oracle : String → String → Except String Unit)
    (s : ScraperState) : Msg → ScraperState × List Event
  | .startScrape =>
      if !s.running then
        ({ s with running := true }, [.sendScrapePage])
      else (s, [])
  | .scrapedData thumbs dests =>
      let s1 := { s with thumbnails := s.thumbnails ++ thumbs,
                         destinations := s.destinations ++ dests }
      let (files', evs) := processDownloads oracle s1.downloadedFiles thumbs
      ({ s1 with downloadedFiles := files' },
        Event.logReceived thumbs dests :: (evs ++ [Event.sendPaginate]))
  | .scrapeComplete =>
      ({ s with running := false },
        [.logComplete s.thumbnails s.destinations])

/-- Sequential processing of a list of messages (the service worker handles
messages one at a time, in arrival order). -/
def runMsgs (oracle : String → String → Except String Unit) :
    ScraperState → List Msg → ScraperState × List Event
  | s, [] => (s, [])
  | s, m :: ms =>
      let (s', evs) := handle oracle s m
      let (s'', evs') := runMsgs oracle s' ms
      (s'', evs ++ evs')

/-! ## Page agent: document model (`content-script.js`)

The DOM is modelled as a rose tree in first-child/next-sibling form, each
element carrying its tag, class list and attributes. Pre-order traversal is
document order; the traversal records each element's proper ancestors
(nearest first) and whether it is the last child of its parent, which is all
the selector heuristics of `paginate` and the `closest('a')` lookup of
`extractData` inspect. -/

/-- A DOM element: tag name, class list, attributes. -/
structure Element where
  tag : String
  classes : List String
  attrs : List (String × String)
deriving DecidableEq, Repr

/-- A DOM forest in first-child/next-sibling form: `nil`, or a node with
its element, its children (first-child chain) and its following siblings. -/
inductive Dom where
  | nil
  | node (e : Element) (children : Dom) (sib : Dom)
deriving DecidableEq, Repr

/-- Whether a `Dom` is the empty forest. -/
def Dom.isNil : Dom → Bool
  | .nil => true
  | .node _ _ _ => false

/-- An element together with its traversal context: proper ancestors
(nearest first) and whether it is the last child of its parent. -/
structure ECtx where
  elem : Element
  ancestors : List Element
  isLastChild : Bool
deriving DecidableEq, Repr

/-- Pre-order (document-order) traversal of a DOM forest, recording each
element's context. -/
def domFlatten (anc : List Element) : Dom → List ECtx
  | .nil => []
  | .node e children sib =>
      ⟨e, anc, sib.isNil⟩ :: (domFlatten (e :: anc) children ++ domFlatten anc sib)

/-- Attribute lookup. -/
def getAttr (e : Element) (name : String) : Option String :=
  (e.attrs.find? (fun p => p.1 == name)).map (fun p => p.2)

/-- Whether an element (in context) matches the selector list
`'a.next, a[rel="next"], button.next-page, .pagination a:last-child'`. -/
def matchesNextSel (c : ECtx) : Bool :=
  (c.elem.tag == "a" && c.elem.classes.contains "next") ||
  (c.elem.tag == "a" && getAttr c.elem "rel" == some "next") ||
  (c.elem.tag == "button" && c.elem.classes.contains "next-page") ||
  (c.elem.tag == "a" && c.isLastChild &&
    c.ancestors.any (fun a => a.classes.contains "pagination"))

/-- `document.querySelector('a.next, a[rel="next"], button.next-page,
.pagination a:last-child')`: the first element in document order matching
any selector of the list, or `none`. -/
def querySelectorNext (d : Dom) : Option ECtx :=
  (domFlatten [] d).find? matchesNextSel

/-- Outcome of `paginate()`: either a control was found and clicked (the
agent then re-runs the load-wait-scrape sequence), or no control was found
and the agent sends `scrapeComplete`. -/
inductive PaginationOutcome where
  | advanceClick (target : ECtx)
  | complete
deriving DecidableEq, Repr

/-- `paginate()` of the content script: query for a next control; click it
if found, otherwise notify the background script that scraping finished. -/
def paginate (d : Dom) : PaginationOutcome :=
  match querySelectorNext d with
  | some c => .advanceClick c
  | none => .complete

/-- `extractData()` of the content script: over all `img` elements in
document order, pair `img.src` with the `href` of the closest enclosing
`a` element (empty string when there is none). -/
def extractData (d : Dom) : List String × List String :=
  let imgs := (domFlatten [] d).filter (fun c => c.elem.tag == "img")
  (imgs.map (fun c => (getAttr c.elem "src").getD ""),
   imgs.map (fun c =>
     match c.ancestors.find? (fun a => a.tag == "a") with
     | some a => (getAttr a "href").getD ""
     | none => ""))

/-! ## Page agent: lazy-load loop (`content-script.js`, `scrape`)

JS source:
```
const scrollAndCheck = async (delay) => {
    let previousHeight = document.body.scrollHeight;
    window.scrollTo(0, document.body.scrollHeight);
    await wait(delay);
    let newHeight = document.body.scrollHeight;
    return newHeight > previousHeight;
};
...
let hasNewContent = true;
while (hasNewContent) { hasNewContent = await scrollAndCheck(2000); }
```
The page's scroll height is modelled as a function `h : Nat → Nat` giving
`document.body.scrollHeight` after `n` scroll-and-wait cycles. -/

/-- One `scrollAndCheck` call after `n` previous scrolls: reads the height,
scrolls and waits (so the height is now `h (n + 1)`), and reports whether
it increased. -/
def scrollAndCheck (h : Nat → Nat) (n : Nat) : Bool :=
  h (n + 1) > h n

/-- The `while (hasNewContent)` loop, with fuel: returns the total number
of scroll-and-wait cycles performed, or `none` if the page kept growing for
the whole fuel budget (the source has no iteration cap). -/
def lazyLoop (h : Nat → Nat) : Nat → Nat → Option Nat
  | 0, _ => none
  | fuel + 1, n =>
      if scrollAndCheck h n then lazyLoop h fuel (n + 1) else some (n + 1)

/-- The simulated height sequence `[500, 900, 900]`: height `500` before
any scroll, `900` from the first scroll on. -/
def heightSeq : Nat → Nat := fun n => if n = 0 then 500 else 900

/-! ## Fixtures and helper lemmas -/

/-- A `button` element with class `next-page`. -/
def buttonCE : Element := ⟨"button", ["next-page"], []⟩

/-- An `a` element with attribute `rel="next"`. -/
def anchorCE : Element := ⟨"a", [], [("rel", "next")]⟩

/-- A plain `body` element. -/
def bodyCE : Element := ⟨"body", [], []⟩

/-- A document whose body holds a `next-page` button followed by an
`a[rel="next"]` link. -/
def docButtonFirst : Dom :=
  .node bodyCE (.node buttonCE .nil (.node anchorCE .nil .nil)) .nil

/-- A document whose body holds the `a[rel="next"]` link followed by the
`next-page` button. -/
def docAnchorFirst : Dom :=
  .node bodyCE (.node anchorCE .nil (.node buttonCE .nil .nil)) .nil

/-- Recognizer for the final-summary console log. -/
def isCompleteLog : Event → Bool
  | .logComplete _ _ => true
  | _ => false

/-- Recognizer for a per-download failure log. -/
def isErrorLog : Event → Bool
  | .logDownloadError _ _ => true
  | _ => false

/-- Message script: one started run with one scraped page, then completion. -/
def msgsOneRun : List Msg :=
  [.startScrape, .scrapedData ["u.jpg"] ["d.html"], .scrapeComplete]

/-- A running coordinator holding one accumulated thumbnail/destination pair. -/
def runningWithPair : ScraperState :=
  { running := true, thumbnails := ["t"], destinations := ["d"],
    downloadedFiles := [], currentPage := 1, lastScrapedHeight := 0 }

/-- `downloadFile` prepends the claimed filename to `downloadedFiles`
whatever the capability's outcome is. -/
theorem downloadFile_records (oracle : String → String → Except String Unit)
    (files : List String) (url : String) :
    (downloadFile oracle files url).2 = claimFilename files url :: files := by
  unfold downloadFile
  cases h : oracle url ("scraped_images/" ++ claimFilename files url) <;> simp [h]

/-- `find?` over a decomposed list: if nothing in the prefix satisfies `p`
and `c` does, the search returns `c`. -/
theorem find?_first {α : Type} (p : α → Bool) :
    ∀ (pre : List α) (c : α) (post : List α),
      (∀ y ∈ pre, p y = false) → p c = true →
      (pre ++ c :: post).find? p = some c := by
  intro pre
  induction pre with
  | nil => intro c post _ hc; simp [List.find?, hc]
  | cons a t ih =>
      intro c post hall hc
      have ha := hall a (by simp)
      simp only [List.cons_append, List.find?, ha]
      exact ih c post (fun y hy => hall y (by simp [hy])) hc

/-- Every event emitted by the download loop is a failure log for one of
the processed URLs. -/
theorem processDownloads_events (oracle : String → String → Except String Unit) :
    ∀ (urls files : List String), ∀ ev ∈ (processDownloads oracle files urls).2,
      ∃ u ∈ urls, ∃ msg, ev = Event.logDownloadError u msg := by
  intro urls
  induction urls with
  | nil => intro files ev hev; simp [processDownloads] at hev
  | cons u rest ih =>
      intro files ev hev
      rw [processDownloads] at hev
      simp only [List.mem_append] at hev
      rcases hev with hev | hev
      · by_cases hs : (downloadFile oracle files u).1.success
        · simp [hs] at hev
        · simp [hs] at hev
          exact ⟨u, by simp, _, hev⟩
      · obtain ⟨v, hv, msg, rfl⟩ := ih (downloadFile oracle files u).2 ev hev
        exact ⟨v, by simp [hv], msg, rfl⟩

/-- The event list of the `scrapedData` branch always ends with the
`paginate` directive. -/
theorem handle_scrapedData_last (oracle : String → String → Except String Unit)
    (s : ScraperState) (thumbs dests : List String) :
    (handle oracle s (.scrapedData thumbs dests)).2.getLast? =
      some Event.sendPaginate := by
  show (Event.logReceived thumbs dests ::
    ((processDownloads oracle (s.downloadedFiles) thumbs).2 ++
      [Event.sendPaginate])).getLast? = some Event.sendPaginate
  rw [← List.cons_append, List.getLast?_concat]

/-- The lazy-load loop, started after `k` scrolls, stops with `n + 1` total
cycles at the first `n ≥ k` whose check reports no growth, provided every
earlier check reported growth and the fuel covers the distance. -/
theorem lazyLoop_stops (h : Nat → Nat) :
    ∀ (fuel k n : Nat), k ≤ n → n - k < fuel →
      (∀ i, k ≤ i → i < n → scrollAndCheck h i = true) →
      scrollAndCheck h n = false →
      lazyLoop h fuel k = some (n + 1) := by
  intro fuel
  induction fuel with
  | zero => intro k n _ hfuel; omega
  | succ f ih =>
      intro k n hkn hfuel hall hstop
      rcases Nat.eq_or_lt_of_le hkn with rfl | hlt
      · rw [lazyLoop, hstop]
        simp
      · have hk : scrollAndCheck h k = true := hall k le_rfl hlt
        rw [lazyLoop, hk]
        exact ih (k + 1) n (by omega) (by omega)
          (fun i hi1 hi2 => hall i (by omega) hi2) hstop

/-! ## Claims -/

/-- C1 (counterexample): the spec says `requestStart()` resets `ScrapeState`
on the `Idle → Running` transition. Running a scrape that accumulates
`"a.jpg"`, completing it, and starting again leaves the previous run's
thumbnails, destinations and claimed filenames in place: nothing is reset. -/
theorem C1_counterexample :
    (runMsgs oracleOk initState
      [.startScrape, .scrapedData ["a.jpg"] ["dest.html"],
       .scrapeComplete, .startScrape]).1 =
      { running := true, thumbnails := ["a.jpg"], destinations := ["dest.html"],
        downloadedFiles := ["a.jpg"], currentPage := 1, lastScrapedHeight := 0 } ∧
    (runMsgs oracleOk initState
      [.startScrape, .scrapedData ["a.jpg"] ["dest.html"],
       .scrapeComplete, .startScrape]).1.thumbnails ≠ [] := by
  decide

/-- C1 (amended): a `startScrape` message while idle flips `running` to
`true` and issues the `scrapePage` directive but leaves the accumulated
thumbnails, destinations and claimed filenames untouched (no reset); while
running it is a complete no-op; hence two calls in succession perform
exactly one transition, and never any reset. -/
theorem C1_requestStart (oracle : String → String → Except String Unit)
    (s : ScraperState) :
    (s.running = false →
      handle oracle s .startScrape =
        ({ s with running := true }, [Event.sendScrapePage])) ∧
    (s.running = true → handle oracle s .startScrape = (s, [])) ∧
    handle oracle (handle oracle s .startScrape).1 .startScrape =
      ((handle oracle s .startScrape).1, []) := by
  refine ⟨?_, ?_, ?_⟩
  · intro h
    simp [handle, h]
  · intro h
    simp [handle, h]
  · cases h : s.running <;> simp [handle, h]

/-- C1 (witness): the amended claim at the initial state: the first call
transitions and emits the begin directive, the second is a no-op. -/
theorem C1_witness :
    handle oracleOk initState .startScrape =
      ({ initState with running := true }, [Event.sendScrapePage]) ∧
    handle oracleOk { initState with running := true } .startScrape =
      ({ initState with running := true }, []) :=
  ⟨(C1_requestStart oracleOk initState).1 rfl,
   (C1_requestStart oracleOk { initState with running := true }).2.1 rfl⟩

/-- C2: the Download Gate derives the candidate name from the URL's
trailing path segment with the query stripped; on collision it walks the
check sequence (original name, then `name_1.ext`, `name_2.ext`, …) and
returns the first name not yet claimed, recording it; in particular
claiming `photo.jpg` three times yields `photo.jpg`, `photo_1.jpg`,
`photo_2.jpg`. -/
theorem C2_downloadGate (oracle : String → String → Except String Unit)
    (files : List String) (url : String) :
    (deriveFilename url ∉ files → claimFilename files url = deriveFilename url) ∧
    claimFilename files url ∉ files ∧
    (downloadFile oracle files url).2 = claimFilename files url :: files ∧
    (∃ k, claimFilename files url =
        checkName (deriveFilename url) 0 (deriveFilename url) k ∧
      ∀ i < k, checkName (deriveFilename url) 0 (deriveFilename url) i ∈ files) ∧
    (claimFilename [] "https://example.com/photo.jpg" = "photo.jpg" ∧
     claimFilename (downloadFile oracleOk [] "https://example.com/photo.jpg").2
       "https://example.com/photo.jpg" = "photo_1.jpg" ∧
     claimFilename (downloadFile oracleOk
         (downloadFile oracleOk [] "https://example.com/photo.jpg").2
         "https://example.com/photo.jpg").2
       "https://example.com/photo.jpg" = "photo_2.jpg") := by
  obtain ⟨k, hk, hall, hfree⟩ := claimFilename_eq_first files url
  refine ⟨?_, claimFilename_not_mem files url, downloadFile_records oracle files url,
    ⟨k, hk, hall⟩, by decide, by decide, by decide⟩
  intro horig
  have hk0 : k = 0 := by
    by_contra h0
    exact horig (by simpa [checkName] using hall 0 (by omega))
  rw [hk, hk0]
  simp [checkName]

/-- C2 (witness): the amended-free conjuncts at a concrete input: with only
`other.png` claimed, `photo.jpg` is returned unchanged and is fresh. -/
theorem C2_witness :
    claimFilename ["other.png"] "https://example.com/photo.jpg" = "photo.jpg" ∧
    claimFilename ["other.png"] "https://example.com/photo.jpg" ∉ ["other.png"] :=
  ⟨(C2_downloadGate oracleOk ["other.png"] "https://example.com/photo.jpg").1
     (by decide),
   (C2_downloadGate oracleOk ["other.png"] "https://example.com/photo.jpg").2.1⟩

/-- C3 (counterexample): a payload with two thumbnails and one destination,
received while running with the invariant holding (both accumulators
empty), is accumulated wholesale, leaving the lengths unequal: malformed
payloads are not rejected. -/
theorem C3_counterexample :
    (handle oracleOk { initState with running := true }
        (.scrapedData ["t1", "t2"] ["d1"])).1.thumbnails.length = 2 ∧
    (handle oracleOk { initState with running := true }
        (.scrapedData ["t1", "t2"] ["d1"])).1.destinations.length = 1 ∧
    ¬ (handle oracleOk { initState with running := true }
        (.scrapedData ["t1", "t2"] ["d1"])).1.thumbnails.length =
      (handle oracleOk { initState with running := true }
        (.scrapedData ["t1", "t2"] ["d1"])).1.destinations.length := by
  decide

/-- C3 (amended): the coordinator never checks payload lengths, so the
equal-length invariant is preserved exactly when the payload itself has
equal lengths — which every payload produced by the page agent's
`extractData` does, since it pushes one thumbnail and one destination per
image element. -/
theorem C3_invariant (oracle : String → String → Except String Unit)
    (s : ScraperState) (thumbs dests : List String) :
    (s.running = true → s.thumbnails.length = s.destinations.length →
      thumbs.length = dests.length →
      (handle oracle s (.scrapedData thumbs dests)).1.thumbnails.length =
        (handle oracle s (.scrapedData thumbs dests)).1.destinations.length) ∧
    (∀ d : Dom, (extractData d).1.length = (extractData d).2.length) := by
  constructor
  · intro _ hs hp
    simp [handle, hs, hp]
  · intro d
    simp [extractData]

/-- C3 (witness): the amended claim at a well-formed single-image payload
received while running on the initial accumulators. -/
theorem C3_witness :
    (handle oracleOk { initState with running := true }
        (.scrapedData ["x.png"] ["y.html"])).1.thumbnails.length =
      (handle oracleOk { initState with running := true }
        (.scrapedData ["x.png"] ["y.html"])).1.destinations.length :=
  (C3_invariant oracleOk { initState with running := true }
    ["x.png"] ["y.html"]).1 rfl rfl rfl

/-- C4 (counterexample): a length-mismatched payload (`["x1"]` against
`[]`) is not rejected: its thumbnail is accumulated, contradicting the
claim that the coordinator accumulates nothing from a malformed payload. -/
theorem C4_counterexample :
    (handle oracleOk { initState with running := true }
        (.scrapedData ["x1"] [])).1.thumbnails = ["x1"] ∧
    (handle oracleOk { initState with running := true }
        (.scrapedData ["x1"] [])).1.thumbnails ≠ [] := by
  decide

/-- C4 (amended): a payload whose sequences have different lengths is
neither rejected nor specially logged: both sequences are appended
wholesale; the run is not aborted (`running` is unchanged) and the
`paginate` directive is still issued afterward. -/
theorem C4_mismatch (oracle : String → String → Except String Unit)
    (s : ScraperState) (thumbs dests : List String)
    (_hmix : thumbs.length ≠ dests.length) :
    (handle oracle s (.scrapedData thumbs dests)).1.thumbnails =
      s.thumbnails ++ thumbs ∧
    (handle oracle s (.scrapedData thumbs dests)).1.destinations =
      s.destinations ++ dests ∧
    (handle oracle s (.scrapedData thumbs dests)).1.running = s.running ∧
    (handle oracle s (.scrapedData thumbs dests)).2.getLast? =
      some Event.sendPaginate := by
  refine ⟨by simp [handle], by simp [handle], by simp [handle], ?_⟩
  exact handle_scrapedData_last oracle s thumbs dests

/-- C4 (witness): the amended claim at the concrete mismatched payload
`["u"]` versus `[]` on the initial state. -/
theorem C4_witness :
    (handle oracleOk initState (.scrapedData ["u"] [])).1.thumbnails = ["u"] ∧
    (handle oracleOk initState (.scrapedData ["u"] [])).2.getLast? =
      some Event.sendPaginate := by
  have h := C4_mismatch oracleOk initState ["u"] [] (by decide)
  exact ⟨h.1, h.2.2.2⟩

/-- C5 (counterexample): in a document containing both an `a[rel="next"]`
link and a `next-page` button, with the button first in document order,
`querySelector` over the comma-separated selector list picks the button:
selector-list order does not override document order. -/
theorem C5_counterexample :
    (∃ c ∈ domFlatten [] docButtonFirst,
      c.elem.tag = "a" ∧ getAttr c.elem "rel" = some "next") ∧
    (∃ c ∈ domFlatten [] docButtonFirst,
      c.elem.tag = "button" ∧ "next-page" ∈ c.elem.classes) ∧
    querySelectorNext docButtonFirst = some ⟨buttonCE, [bodyCE], false⟩ ∧
    buttonCE.tag ≠ "a" := by
  decide

/-- C5 (amended): the pagination control chosen by `paginate` is the first
element in document order matching any selector of the list
`a.next, a[rel="next"], button.next-page, .pagination a:last-child`;
whichever matching element appears first wins, regardless of which
selector it matches. -/
theorem C5_firstMatch (d : Dom) (pre : List ECtx) (c : ECtx) (post : List ECtx)
    (hsplit : domFlatten [] d = pre ++ c :: post)
    (hpre : ∀ y ∈ pre, matchesNextSel y = false)
    (hc : matchesNextSel c = true) :
    querySelectorNext d = some c := by
  rw [querySelectorNext, hsplit]
  exact find?_first matchesNextSel pre c post hpre hc

/-- C5 (witness): when the `a[rel="next"]` link precedes the button in
document order, the link is chosen. -/
theorem C5_witness :
    querySelectorNext docAnchorFirst = some ⟨anchorCE, [bodyCE], false⟩ :=
  C5_firstMatch docAnchorFirst [⟨bodyCE, [], true⟩] ⟨anchorCE, [bodyCE], false⟩
    [⟨buttonCE, [bodyCE], true⟩] (by decide) (by decide) (by decide)

/-- C6 (counterexample): the final summary logged on `scrapeComplete` is
the accumulated results only; two runs identical except that every
download fails in one and succeeds in the other produce the same summary
while their download-failure counts differ, so the summary cannot report
counts of successful and failed downloads. -/
theorem C6_counterexample :
    ((runMsgs oracleOk initState msgsOneRun).2.filter isCompleteLog =
      (runMsgs oracleFail initState msgsOneRun).2.filter isCompleteLog) ∧
    (runMsgs oracleOk initState msgsOneRun).2.countP isErrorLog = 0 ∧
    (runMsgs oracleFail initState msgsOneRun).2.countP isErrorLog = 1 := by
  decide

/-- C6 (amended): when `paginate` finds no pagination control it emits the
completion signal instead of another payload; on `scrapeComplete` the
coordinator (without checking that it was running) sets `running` to
`false` — so from `Running` it transitions to `Idle` — and logs a final
summary consisting of the accumulated thumbnails and destinations, with no
download success/failure counts. -/
theorem C6_complete (oracle : String → String → Except String Unit)
    (s : ScraperState) (d : Dom) :
    (querySelectorNext d = none → paginate d = .complete) ∧
    handle oracle s .scrapeComplete =
      ({ s with running := false },
        [Event.logComplete s.thumbnails s.destinations]) := by
  constructor
  · intro h
    simp [paginate, h]
  · rfl

/-- C6 (witness): the amended claim on the empty document and a running
state holding one accumulated pair. -/
theorem C6_witness :
    paginate Dom.nil = .complete ∧
    handle oracleOk runningWithPair .scrapeComplete =
      ({ runningWithPair with running := false },
        [Event.logComplete ["t"] ["d"]]) :=
  ⟨(C6_complete oracleOk initState Dom.nil).1 rfl,
   (C6_complete oracleOk runningWithPair Dom.nil).2⟩

/-- C7: `downloadFile` always returns a tagged result — success exactly
when the capability succeeds, failure carrying the capability's error
message — and never propagates an exception; every event emitted by the
download loop is a per-URL failure log, and the `paginate` directive is
issued after the loop no matter how many downloads failed. -/
theorem C7_downloadResult (oracle : String → String → Except String Unit)
    (files : List String) (url : String) (s : ScraperState)
    (thumbs dests : List String) :
    ((downloadFile oracle files url).1 =
        ⟨true, url, none⟩ ∨
      ∃ e, (downloadFile oracle files url).1 = ⟨false, url, some e⟩) ∧
    (oracle url ("scraped_images/" ++ claimFilename files url) = .ok () →
      (downloadFile oracle files url).1 = ⟨true, url, none⟩) ∧
    (∀ e, oracle url ("scraped_images/" ++ claimFilename files url) = .error e →
      (downloadFile oracle files url).1 = ⟨false, url, some e⟩) ∧
    (∀ ev ∈ (processDownloads oracle files thumbs).2,
      ∃ u ∈ thumbs, ∃ msg, ev = Event.logDownloadError u msg) ∧
    (handle oracle s (.scrapedData thumbs dests)).2.getLast? =
      some Event.sendPaginate := by
  refine ⟨?_, ?_, ?_, processDownloads_events oracle thumbs files,
    handle_scrapedData_last oracle s thumbs dests⟩
  · cases h : oracle url ("scraped_images/" ++ claimFilename files url) with
    | error e =>
        right
        exact ⟨e, by simp [downloadFile, h]⟩
    | ok v =>
        left
        simp [downloadFile, h]
  · intro h
    simp [downloadFile, h]
  · intro e h
    simp [downloadFile, h]

/-- C7 (witness): with the always-failing capability, the concrete download
returns the tagged failure and the handler still ends with `paginate`. -/
theorem C7_witness :
    (downloadFile oracleFail [] "https://example.com/photo.jpg").1 =
      ⟨false, "https://example.com/photo.jpg", some "network error"⟩ ∧
    (handle oracleFail initState
        (.scrapedData ["https://example.com/photo.jpg"] ["d"])).2.getLast? =
      some Event.sendPaginate :=
  ⟨(C7_downloadResult oracleFail [] "https://example.com/photo.jpg" initState
      [] []).2.2.1 "network error" rfl,
   (C7_downloadResult oracleFail [] "https://example.com/photo.jpg" initState
      ["https://example.com/photo.jpg"] ["d"]).2.2.2.2⟩

/-- C8: the lazy-load loop performs one scroll-and-wait cycle per check and
stops at the first check at which the height did not increase: if the
first `n` checks see growth and check `n` does not, it performs exactly
`n + 1` cycles; for the simulated height sequence `[500, 900, 900]` it
performs exactly 2 cycles. -/
theorem C8_lazyLoad (h : Nat → Nat) (n fuel : Nat)
    (hgrow : ∀ i < n, h (i + 1) > h i) (hstop : ¬ h (n + 1) > h n)
    (hfuel : n < fuel) :
    lazyLoop h fuel 0 = some (n + 1) ∧ lazyLoop heightSeq 10 0 = some 2 := by
  constructor
  · apply lazyLoop_stops h fuel 0 n (Nat.zero_le n) (by omega)
    · intro i _ hi
      simpa [scrollAndCheck] using hgrow i hi
    · simpa [scrollAndCheck] using hstop
  · decide

/-- C8 (witness): the claim at the simulated height sequence
`[500, 900, 900]` itself (`n = 1`): exactly 2 scroll-and-wait cycles. -/
theorem C8_witness : lazyLoop heightSeq 10 0 = some 2 :=
  (C8_lazyLoad heightSeq 1 10 (by decide) (by decide) (by decide)).1

/-- C9: the collision suffix is built from the chunks before the first and
between the first and second dots only: a second claim of
`archive.tar.gz` yields `archive_1.tar` (dropping `.gz`), and a second
claim of a dotless segment `photo` yields `photo_1.undefined` (JS
interpolation of the `undefined` second chunk). -/
theorem C9_suffixSplit :
    claimFilename ["archive.tar.gz"] "https://example.com/archive.tar.gz" =
      "archive_1.tar" ∧
    claimFilename ["photo"] "https://example.com/photo" = "photo_1.undefined" ∧
    claimFilename ["script.min.js"] "https://example.com/script.min.js" =
      "script_1.min" ∧
    candidate "archive.tar.gz" 1 = "archive_1.tar" ∧
    candidate "photo" 1 = "photo_1.undefined" := by
  decide

/-- C10: `downloadFile` records the claimed filename before attempting the
download — the updated `downloadedFiles` does not depend on the
capability's outcome — so a name claimed by a failed download stays
reserved: re-claiming `photo.jpg` after a failed download of it yields
`photo_1.jpg`. -/
theorem C10_reservedOnFailure (oracle o1 o2 : String → String → Except String Unit)
    (files : List String) (url : String) :
    (downloadFile oracle files url).2 = claimFilename files url :: files ∧
    (downloadFile o1 files url).2 = (downloadFile o2 files url).2 ∧
    ((downloadFile oracleFail [] "https://example.com/photo.jpg").1.success =
        false ∧
      (downloadFile oracleFail [] "https://example.com/photo.jpg").2 =
        ["photo.jpg"] ∧
      claimFilename (downloadFile oracleFail [] "https://example.com/photo.jpg").2
        "https://example.com/photo.jpg" = "photo_1.jpg") := by
  refine ⟨downloadFile_records oracle files url, ?_, by decide, by decide, by decide⟩
  rw [downloadFile_records o1 files url, downloadFile_records o2 files url]

end Scraper
